import Mathlib

/-!
Verification of the telemetry ingestion gateway
(`src/packages/api/src/otelGateway/server.ts`) against its natural-language
specification.  The TypeScript source is shallowly embedded: each pure helper
becomes a Lean function, the module-level caches become explicit state that is
threaded through the functions, and the event-driven parts (stream
finalization, abort propagation, pooled-session errors) become small state
machines driven by explicit event lists.
-/

namespace OtelGateway

/-- Embeds `CachedAuth` from server.ts: the cached result of a successful token
resolution.  `expiresAt` is a millisecond timestamp (modelled as `Nat`). -/
structure CachedAuth where
  teamId : String
  assignedShard : Option String
  expiresAt : Nat
deriving DecidableEq, Repr

/-- The value produced by the external collaborator `resolveIngestionToken`
(§6 of the spec: `{ tenantId, assignedShard?, tokenHash, tokenId }`). -/
structure ResolvedToken where
  teamId : String
  assignedShard : Option String
  tokenHash : String
  tokenId : String
deriving DecidableEq, Repr

/-- The module-level `authCache` map (token hash → cached record), embedded as
an association list; insertion prepends, and lookup takes the first match,
which models `Map.set` overwriting. -/
def AuthCache := List (String × CachedAuth)
deriving DecidableEq

instance : EmptyCollection AuthCache := ⟨([] : List (String × CachedAuth))⟩

instance : Repr AuthCache := inferInstanceAs (Repr (List (String × CachedAuth)))

/-- Models `authCache.get`: first binding for the key, like a JS `Map`. -/
def AuthCache.get (c : AuthCache) (k : String) : Option CachedAuth :=
  ((List.find? (fun p => p.1 == k) c)).map Prod.snd

/-- Models `authCache.set`: prepend, so later `get` sees the new binding. -/
def AuthCache.set (c : AuthCache) (k : String) (v : CachedAuth) : AuthCache :=
  ((k, v) :: c : List (String × CachedAuth))

/-! ### Header values and token extraction -/

/-- A Node.js incoming header value: either a single string or an array of
strings. -/
inductive HeaderValue where
  | str (s : String)
  | arr (l : List String)
deriving DecidableEq, Repr

/-- JS truthiness of a header value: the empty string is falsy, arrays are
always truthy. -/
def HeaderValue.truthy : HeaderValue → Bool
  | .str s => !s.isEmpty
  | .arr _ => true

/-- ASCII portion of the JavaScript `\s` character class (space, tab, line
feed, vertical tab, form feed, carriage return).  The same set is used to
model `String.prototype.trim`. -/
def isJsSpace (c : Char) : Bool :=
  c == ' ' || c == '\t' || c == '\n' || c == '\x0b' || c == '\x0c' || c == '\r'

/-- A JavaScript regex line terminator (`.` does not match these). -/
def isLineTerm (c : Char) : Bool :=
  c == '\n' || c == '\r'

/-- Models `String.prototype.trim`: drop leading and trailing whitespace. -/
def jsTrim (s : String) : String :=
  String.mk (((s.data.dropWhile isJsSpace).reverse.dropWhile isJsSpace).reverse)

/-- The suffix of the header value after `[Bb]earer`, matched against
`\s+(.+)$` with JavaScript backtracking: the `\s+` group is greedy, giving
back characters one at a time until the capture `(.+)` is nonempty and free
of line terminators.  Returns the captured group. -/
def bearerSplit (cs : List Char) : Option (List Char) :=
  (List.range (cs.takeWhile isJsSpace).length).reverse.findSome? fun i =>
    let cap := cs.drop (i + 1)
    if cap ≠ [] ∧ cap.all (fun c => !isLineTerm c) then some cap else none

/-- Match `/^[Bb]earer\s+(.+)$/` against the character list of the header
value, returning the captured group. -/
def matchBearer : List Char → Option (List Char)
  | [] => none
  | c :: rest =>
    if (c = 'B' ∨ c = 'b') ∧ rest.take 5 = ['e', 'a', 'r', 'e', 'r'] then
      bearerSplit (rest.drop 5)
    else none

/-- Embeds `getBearerToken` from server.ts.  An array header value contributes only
its first element (`authHeader[0]`); a falsy value yields `null`; a
`Bearer <token>` match yields the trimmed capture; otherwise the whole
trimmed value is the token, with the empty string collapsing to `null`
(`trimmed || null`). -/
def getBearerToken (authHeader : Option HeaderValue) : Option String :=
  let h? : Option String :=
    match authHeader with
    | none => none
    | some (.str s) => some s
    | some (.arr l) => l.head?
  match h? with
  | none => none
  | some h =>
    if h.isEmpty then none
    else
      match matchBearer h.data with
      | some cap => some (jsTrim (String.mk cap))
      | none =>
        let trimmed := jsTrim h
        if trimmed.isEmpty then none else some trimmed

/-- Models `key.toLowerCase()` on one character: HTTP header keys are ASCII, so the
ASCII case fold is the faithful model. -/
def lowerChar (c : Char) : Char :=
  if 'A' ≤ c ∧ c ≤ 'Z' then Char.ofNat (c.toNat + 32) else c

/-- Models `key.toLowerCase()` on a header key. -/
def lowerKey (s : String) : String := String.mk (s.data.map lowerChar)

/-- Case-insensitive search for an `authorization` key, the fallback branch
of `getAuthHeader`. -/
def findAuthKeyCI (headers : List (String × HeaderValue)) : Option HeaderValue :=
  (headers.find? (fun p => lowerKey p.1 == "authorization")).map Prod.snd

/-- Embeds `getAuthHeader` from server.ts: try the exact lowercase key first
(`headers.authorization`, with JS truthiness), then fall back to a
case-insensitive scan of the keys. -/
def getAuthHeader (headers : List (String × HeaderValue)) : Option HeaderValue :=
  match (headers.find? (fun p => p.1 == "authorization")).map Prod.snd with
  | some v => if v.truthy then some v else findAuthKeyCI headers
  | none => findAuthKeyCI headers

/-! ### Shard router -/

/-- Models `Number.parseInt` applied to the digits captured by `(\d+)`: defined only
when the character list is a nonempty run of decimal digits. -/
def parseDigits (cs : List Char) : Option Nat :=
  if cs ≠ [] ∧ cs.all Char.isDigit then
    some (cs.foldl (fun n c => n * 10 + (c.toNat - 48)) 0)
  else none

/-- Embeds `shardIndexFromId` from server.ts: match `/^shard-(\d+)$/` and parse the
captured digits. -/
def shardIndexFromId (shardId : String) : Option Nat :=
  if shardId.data.take 6 = "shard-".data then parseDigits (shardId.data.drop 6)
  else none

/-- Embeds `pickShardEndpoint` from server.ts: `endpoints[idx] ?? null`. -/
def pickShardEndpoint (shardId : String) (endpoints : List String) : Option String :=
  match shardIndexFromId shardId with
  | none => none
  | some idx => endpoints.get? idx

/-! ### Authentication (`authenticateToken`) -/

/-- What one call to `authenticateToken` produced: its return value, the
updated `authCache`, and how many calls it made to the external collaborators
`resolveIngestionToken` and `markIngestionTokenUsed`. -/
structure AuthResult where
  result : Option CachedAuth
  cache : AuthCache
  resolverCalls : Nat
  markUsedCalls : Nat
deriving DecidableEq, Repr

/-- Embeds `authenticateToken` from server.ts (lines 64-87).  Note the source calls
`resolveIngestionToken` unconditionally — the cache key is the token hash,
which only the resolver computes — and consults the cache only afterwards.
The TTL is the hard-coded 60 000 ms. -/
def authenticateToken (resolver : String → Option ResolvedToken)
    (cache : AuthCache) (now : Nat) (token : String) : AuthResult :=
  match resolver token with
  | none => ⟨none, cache, 1, 0⟩
  | some resolved =>
    if resolved.tokenHash.isEmpty then ⟨none, cache, 1, 0⟩
    else
      match cache.get resolved.tokenHash with
      | some cached =>
        if now < cached.expiresAt then ⟨some cached, cache, 1, 0⟩
        else
          let result : CachedAuth :=
            ⟨resolved.teamId, resolved.assignedShard, now + 60000⟩
          ⟨some result, cache.set resolved.tokenHash result, 1, 1⟩
      | none =>
        let result : CachedAuth :=
          ⟨resolved.teamId, resolved.assignedShard, now + 60000⟩
        ⟨some result, cache.set resolved.tokenHash result, 1, 1⟩

/-! ### The two gateway request handlers

The HTTP handler (server.ts lines 159-385) and the gRPC stream handler
(lines 547-950) are embedded as pure functions from the request inputs and
the shared cache to an outcome.  Byte forwarding is captured by the outcome
constructor: only `proxied`/`bridged` creates an outbound request or stream;
every reject branch pipes the body into a local sink, so zero payload bytes
reach any shard.  `logFields` collects the log-entry fields that are computed
from the authorization header or the token (the `tokenPrefix` values of lines
206-209/226, 268, 616-618/634 and 660); all other logged fields are
independent of the token. -/

/-- The `'authorization': tokenPrefix` field of the incoming-request log
entry: first 20 characters of the header value plus an ellipsis, or the
constants `none`/`multiple`. -/
def headerLogTokenField (authHeader : Option HeaderValue) : String :=
  match authHeader with
  | none => "none"
  | some (.str s) => String.mk (s.data.take 20 ++ ['.', '.', '.'])
  | some (.arr _) => "multiple"

/-- The `tokenPrefix` field of the invalid-token log entry: first 10
characters of the token plus an ellipsis. -/
def invalidTokenLogField (token : String) : String :=
  String.mk (token.data.take 10 ++ ['.', '.', '.'])

/-- JS `x || d` for an optional string: `undefined` and `""` both fall back
to the default. -/
def jsOrElse (o : Option String) (d : String) : String :=
  match o with
  | none => d
  | some s => if s.isEmpty then d else s

/-- The endpoint used in the authenticated branch:
`pickShardEndpoint(auth.assignedShard || 'shard-0', endpoints)`. -/
def routeAuthorized (auth : CachedAuth) (endpoints : List String) : Option String :=
  pickShardEndpoint (jsOrElse auth.assignedShard "shard-0") endpoints

/-- Terminal outcome of the HTTP handler: either a gateway-produced status
and body with no outbound request, or a proxied request to `target` carrying
`x-hdx-team-id: teamHeader`. -/
inductive HttpResponse where
  | reject (status : Nat) (body : String)
  | proxied (target : String) (teamHeader : String)
deriving DecidableEq, Repr

/-- Everything observable about one HTTP handler run. -/
structure HttpRun where
  response : HttpResponse
  resolverCalls : Nat
  cache : AuthCache
  logFields : List String
deriving DecidableEq, Repr

/-- The HTTP request handler (server.ts lines 159-385): extract the bearer
token, reject 401 when it is falsy, authenticate (401 on failure), route
(503 when no endpoint), otherwise proxy to the target with the tenant
header. -/
def handleHttpRequest (resolver : String → Option ResolvedToken)
    (cache : AuthCache) (now : Nat)
    (headers : List (String × HeaderValue)) (endpoints : List String) : HttpRun :=
  let authHeader := getAuthHeader headers
  let hdrField := headerLogTokenField authHeader
  match getBearerToken authHeader with
  | none => ⟨.reject 401 "missing token", 0, cache, [hdrField]⟩
  | some token =>
    if token.isEmpty then ⟨.reject 401 "missing token", 0, cache, [hdrField]⟩
    else
      let ar := authenticateToken resolver cache now token
      match ar.result with
      | none =>
        ⟨.reject 401 "invalid token", ar.resolverCalls, ar.cache,
          [hdrField, invalidTokenLogField token]⟩
      | some auth =>
        match routeAuthorized auth endpoints with
        | none => ⟨.reject 503 "no shard endpoint", ar.resolverCalls, ar.cache, [hdrField]⟩
        | some target =>
          ⟨.proxied target auth.teamId, ar.resolverCalls, ar.cache, [hdrField]⟩

/-- Result of one `await getClientSession(target)` as seen by the stream
handler: resolved with a usable session, resolved but the session turned out
destroyed/closed/connecting at the post-await check, or rejected. -/
inductive SessionFetch where
  | ok
  | okInvalid
  | err
deriving DecidableEq, Repr

/-- Terminal outcome of the gRPC stream handler: a guarded
`safeRespond`/`safeEnd` rejection with the given status, or a bridged stream
to `target` carrying `x-hdx-team-id: teamHeader`. -/
inductive GrpcOutcome where
  | rejected (status : Nat)
  | bridged (target : String) (teamHeader : String)
deriving DecidableEq, Repr

/-- Everything observable about one gRPC stream handler run. -/
structure GrpcRun where
  outcome : GrpcOutcome
  resolverCalls : Nat
  cache : AuthCache
  logFields : List String
deriving DecidableEq, Repr

/-- The gRPC stream handler (server.ts lines 547-950) up to the point where
the stream bridge is wired.  `fetch1` is the first `getClientSession` result;
on `okInvalid` the handler deletes the pool entry and retries once
(`fetch2`), and a still-invalid session fails the final liveness check.
Session acquisition failure is surfaced as 503. -/
def handleGrpcStream (resolver : String → Option ResolvedToken)
    (cache : AuthCache) (now : Nat)
    (headers : List (String × HeaderValue)) (endpoints : List String)
    (fetch1 fetch2 : SessionFetch) : GrpcRun :=
  let authHeader := getAuthHeader headers
  let hdrField := headerLogTokenField authHeader
  match getBearerToken authHeader with
  | none => ⟨.rejected 401, 0, cache, [hdrField]⟩
  | some token =>
    if token.isEmpty then ⟨.rejected 401, 0, cache, [hdrField]⟩
    else
      let ar := authenticateToken resolver cache now token
      match ar.result with
      | none =>
        ⟨.rejected 401, ar.resolverCalls, ar.cache,
          [hdrField, invalidTokenLogField token]⟩
      | some auth =>
        match routeAuthorized auth endpoints with
        | none => ⟨.rejected 503, ar.resolverCalls, ar.cache, [hdrField]⟩
        | some target =>
          match fetch1 with
          | .err => ⟨.rejected 503, ar.resolverCalls, ar.cache, [hdrField]⟩
          | .ok => ⟨.bridged target auth.teamId, ar.resolverCalls, ar.cache, [hdrField]⟩
          | .okInvalid =>
            match fetch2 with
            | .err => ⟨.rejected 503, ar.resolverCalls, ar.cache, [hdrField]⟩
            | .okInvalid => ⟨.rejected 503, ar.resolverCalls, ar.cache, [hdrField]⟩
            | .ok => ⟨.bridged target auth.teamId, ar.resolverCalls, ar.cache, [hdrField]⟩

/-! ### Connection pool (`getClientSession`, server.ts lines 394-538)

The pool is the module-level `sessions` map plus the `http2` session objects
it refers to.  `acquireStart` embeds the synchronous prefix of
`getClientSession` — everything that runs before the promise suspends.
Crucially, the source only executes `sessions.set(targetBaseUrl, s)` inside
the `'connect'` handler (line 487), embedded here as `connectFinish`. -/

/-- Observable state of one client `http2` session object. -/
structure PoolSession where
  connecting : Bool
  closed : Bool
  destroyed : Bool
deriving DecidableEq, Repr

/-- Pool state: the `sessions` endpoint→session-id map, every session object
ever created (by id), the `sessionPingIntervals` keys, a fresh-id counter,
and the number of `http2.connect` calls made so far. -/
structure Pool where
  sessions : List (String × Nat)
  states : List (Nat × PoolSession)
  pingEndpoints : List String
  nextId : Nat
  connectAttempts : Nat
deriving DecidableEq, Repr

/-- The pool before any acquisition. -/
def Pool.empty : Pool := ⟨[], [], [], 0, 0⟩

/-- What the synchronous prefix of `getClientSession` decides to do. -/
inductive AcquireOutcome where
  | reuse (sid : Nat)
  | awaitExisting (sid : Nat)
  | establish (sid : Nat)
deriving DecidableEq, Repr

/-- Look up a session object by id. -/
def Pool.state? (p : Pool) (sid : Nat) : Option PoolSession :=
  ((List.find? (fun q => q.1 == sid) p.states)).map Prod.snd

/-- The synchronous prefix of `getClientSession(targetBaseUrl)`: if the
`sessions` map holds a live session, reuse it (or await it if it reports
`connecting`); otherwise call `http2.connect`, creating a new session object
in the `connecting` state — without inserting it into the `sessions` map,
which only `connectFinish` does. -/
def acquireStart (p : Pool) (endpoint : String) : Pool × AcquireOutcome :=
  let existing? := ((List.find? (fun q => q.1 == endpoint) p.sessions)).map Prod.snd
  match existing? with
  | some sid =>
    match p.state? sid with
    | some st =>
      if !st.closed && !st.destroyed then
        if st.connecting then (p, .awaitExisting sid) else (p, .reuse sid)
      else
        -- dead map entry: fall through to a fresh http2.connect
        ({ p with
            states := (p.nextId, ⟨true, false, false⟩) :: p.states,
            nextId := p.nextId + 1,
            connectAttempts := p.connectAttempts + 1 },
          .establish p.nextId)
    | none =>
      ({ p with
          states := (p.nextId, ⟨true, false, false⟩) :: p.states,
          nextId := p.nextId + 1,
          connectAttempts := p.connectAttempts + 1 },
        .establish p.nextId)
  | none =>
    ({ p with
        states := (p.nextId, ⟨true, false, false⟩) :: p.states,
        nextId := p.nextId + 1,
        connectAttempts := p.connectAttempts + 1 },
      .establish p.nextId)

/-- The `'connect'` handler (lines 448-490): the session leaves the
`connecting` state, registers its ping interval and is finally stored in the
`sessions` map. -/
def connectFinish (p : Pool) (endpoint : String) (sid : Nat) : Pool :=
  { p with
      sessions := (endpoint, sid) :: p.sessions,
      pingEndpoints := endpoint :: p.pingEndpoints,
      states := (sid, ⟨false, false, false⟩) :: p.states }

/-! ### Per-stream finalization guards (`safeRespond` / `safeEnd`,
server.ts lines 561-583) -/

/-- The mutable per-stream finalization state: the two guard flags, the
externally driven `destroyed`/`closed` flags of the inbound stream, and
counters of the `stream.respond` / `stream.end` calls that actually
succeeded. -/
structure StreamFin where
  streamResponded : Bool
  streamEnded : Bool
  destroyed : Bool
  closed : Bool
  respondsSent : Nat
  endsSent : Nat
deriving DecidableEq, Repr

/-- Embeds `safeRespond` (lines 562-571): respond only when the guard flag is unset
and the stream is not destroyed/closed; `throws = true` models
`stream.respond` raising, in which case the guard flag stays unset. -/
def safeRespond (throws : Bool) (s : StreamFin) : StreamFin :=
  if !s.streamResponded && !s.destroyed && !s.closed then
    if throws then s
    else { s with streamResponded := true, respondsSent := s.respondsSent + 1 }
  else s

/-- Embeds `safeEnd` (lines 574-583): end only when the guard flag is unset and the
stream is not destroyed; a throwing `stream.end` leaves the flag unset. -/
def safeEnd (throws : Bool) (s : StreamFin) : StreamFin :=
  if !s.streamEnded && !s.destroyed then
    if throws then s
    else { s with streamEnded := true, endsSent := s.endsSent + 1 }
  else s

/-- One async event racing to finalize the stream: any of the handler paths
(outbound error, outbound close, outbound response, inbound abort/error,
reject branches) calls `safeRespond` and/or `safeEnd`; the client can also
flip the stream to destroyed or closed at any time. -/
inductive FinEvent where
  | respondCall (throws : Bool)
  | endCall (throws : Bool)
  | markDestroyed
  | markClosed
deriving DecidableEq, Repr

/-- Apply one finalization event. -/
def finStep (s : StreamFin) : FinEvent → StreamFin
  | .respondCall t => safeRespond t s
  | .endCall t => safeEnd t s
  | .markDestroyed => { s with destroyed := true }
  | .markClosed => { s with closed := true }

/-- Run a whole interleaving of finalization events. -/
def runFin (s : StreamFin) (evs : List FinEvent) : StreamFin :=
  evs.foldl finStep s

/-- A freshly opened stream: no guard set, nothing sent. -/
def StreamFin.init : StreamFin := ⟨false, false, false, false, 0, 0⟩

/-! ### Stream bridging and abort propagation (server.ts lines 844-944) -/

/-- State of one bridged inbound/outbound stream pair. -/
structure Bridge where
  inboundDestroyed : Bool
  inboundEnded : Bool
  inboundResponded : Bool
  proxyDestroyed : Bool
  relayedIn : Nat
  relayedOut : Nat
deriving DecidableEq, Repr

/-- Async events on a bridged pair.  `inboundData`/`proxyData` are the two
`pipe` directions; the rest are the registered handlers. -/
inductive BridgeEvent where
  | inboundAborted
  | proxyClose
  | proxyError
  | inboundData (n : Nat)
  | proxyData (n : Nat)
deriving DecidableEq, Repr

/-- Process one bridge event, mirroring the handler registrations:
`stream.on('aborted')` destroys the proxy stream (line 913); the inbound
stream itself is destroyed by the client abort; `proxyStream.on('close')`
calls `safeEnd` (line 927); `proxyStream.on('error')` calls `safeRespond`
then `safeEnd` (lines 902-903) and leaves the errored proxy stream
destroyed; the `pipe`s relay bytes only while both sides are alive. -/
def bridgeStep (b : Bridge) : BridgeEvent → Bridge
  | .inboundAborted => { b with inboundDestroyed := true, proxyDestroyed := true }
  | .proxyClose =>
    if !b.inboundEnded && !b.inboundDestroyed then { b with inboundEnded := true } else b
  | .proxyError =>
    let b' :=
      if !b.inboundResponded && !b.inboundDestroyed then
        { b with inboundResponded := true }
      else b
    let b'' :=
      if !b'.inboundEnded && !b'.inboundDestroyed then
        { b' with inboundEnded := true }
      else b'
    { b'' with proxyDestroyed := true }
  | .inboundData n =>
    if !b.inboundDestroyed && !b.proxyDestroyed && !b.inboundEnded then
      { b with relayedIn := b.relayedIn + n }
    else b
  | .proxyData n =>
    if !b.inboundDestroyed && !b.proxyDestroyed then
      { b with relayedOut := b.relayedOut + n }
    else b

/-- Run a whole interleaving of bridge events. -/
def runBridge (b : Bridge) (evs : List BridgeEvent) : Bridge :=
  evs.foldl bridgeStep b

/-! ### Session error classification (server.ts lines 492-526) -/

/-- What the pooled session's `'error'` handler does: whether it logs at
error level, whether it removes the session (and its ping interval) from the
pool, and whether it rejects the pending `getClientSession` promise. -/
structure SessionErrorOutcome where
  errorLogged : Bool
  removedFromPool : Bool
  rejectsAcquire : Bool
deriving DecidableEq, Repr

/-- The `s.on('error')` handler: an error while `s.connecting` is a real
connection failure (logged at error level, pool entry removed, promise
rejected); after establishment, the session is removed from the pool and the
error is logged only when it is not an `ECONNRESET`. -/
def onSessionError (connecting : Bool) (code : String) : SessionErrorOutcome :=
  if connecting then ⟨true, true, true⟩
  else ⟨code ≠ "ECONNRESET", true, false⟩

/-! ### Derived observations and concrete runs used by the theorems -/

/-- Whether an HTTP handler outcome sends any payload bytes to a shard. -/
def HttpResponse.forwardsPayload : HttpResponse → Bool
  | .reject _ _ => false
  | .proxied _ _ => true

/-- Whether a gRPC handler outcome sends any payload bytes to a shard. -/
def GrpcOutcome.forwardsPayload : GrpcOutcome → Bool
  | .rejected _ => false
  | .bridged _ _ => true

/-- Concrete resolver for the C1 counterexample run. -/
def c1Resolver : String → Option ResolvedToken := fun t =>
  if t = "abc" then some ⟨"t1", some "shard-1", "h1", "id1"⟩ else none

/-- First resolution of token `abc` at `now = 0`. -/
def c1First : AuthResult := authenticateToken c1Resolver (∅ : AuthCache) 0 "abc"

/-- Second resolution of the same token at `now = 10`, well inside the
60 000 ms TTL. -/
def c1Second : AuthResult := authenticateToken c1Resolver c1First.cache 10 "abc"

/-- Two back-to-back `getClientSession` calls for a never-before-seen
endpoint, neither session having connected yet — the synchronous prefixes of
two concurrent acquisitions. -/
def c2TwoAcquires : Pool × AcquireOutcome :=
  acquireStart (acquireStart Pool.empty "http://shard0:4317").1 "http://shard0:4317"

/-- Resolver for the C5 scenario: token `abc` resolves to
`{tenantId: "t1", assignedShard: "shard-1"}`. -/
def c5Resolver : String → Option ResolvedToken := fun t =>
  if t = "abc" then some ⟨"t1", some "shard-1", "h1", "id1"⟩ else none

/-- Resolver for the C5 default-shard scenario: token `abc` resolves with no
`assignedShard`. -/
def c5ResolverNoShard : String → Option ResolvedToken := fun t =>
  if t = "abc" then some ⟨"t1", none, "h1", "id1"⟩ else none

/-- The C9 counterexample run: token `abc` (shorter than the 10-character log
prefix), unresolvable, over a single endpoint. -/
def c9Run : HttpRun :=
  handleHttpRequest (fun _ => none) (∅ : AuthCache) 0
    [("authorization", HeaderValue.str "Bearer abc")] ["http://h0:9"]

/-- A 24-character token, longer than every token-derived log field. -/
def c9LongToken : String := "tok-0123456789abcdefghij"

/-- A run carrying the 24-character token. -/
def c9LongRun : HttpRun :=
  handleHttpRequest (fun _ => none) (∅ : AuthCache) 0
    [("authorization", HeaderValue.str ("Bearer " ++ c9LongToken))] ["http://h0:9"]

/-- Coupled invariant for the finalization machine: the success counters
mirror the guard flags, so a set flag means exactly one successful call. -/
def FinCounts (s : StreamFin) : Prop :=
  s.respondsSent = (bif s.streamResponded then 1 else 0)
  ∧ s.endsSent = (bif s.streamEnded then 1 else 0)

/-! ## Helper lemmas -/

theorem AuthCache.get_set_self (c : AuthCache) (k : String) (v : CachedAuth) :
    (c.set k v).get k = some v := by
  simp [AuthCache.get, AuthCache.set, List.find?]

theorem take_shard_of_append (ds : List Char) :
    ("shard-".data ++ ds).take 6 = "shard-".data := by
  have h6 : ("shard-".data).length = 6 := by decide
  rw [← h6]
  exact List.take_left _ _

theorem drop_shard_of_append (ds : List Char) :
    ("shard-".data ++ ds).drop 6 = ds := by
  have h6 : ("shard-".data).length = 6 := by decide
  rw [← h6]
  exact List.drop_left _ _

theorem shardIndexFromId_of_append (shardId : String) (ds : List Char)
    (h : shardId.data = "shard-".data ++ ds) :
    shardIndexFromId shardId = parseDigits ds := by
  unfold shardIndexFromId
  rw [h, take_shard_of_append, drop_shard_of_append]
  simp

/-! ## C4: the shard router is a pure total function -/

/-- C4: for every shard-id string and endpoint list, `pickShardEndpoint` is a
pure total function (totality is inherent in its Lean type — it returns and
never throws): when the string is `shard-` followed by a nonempty digit run
it returns `endpoints[index]` for the decimal value of the digits; when the
`shard-<index>` pattern does not match it returns null; and when the index is
out of range it returns null. -/
theorem C4_shard_router_total (shardId : String) (endpoints : List String) :
    (∀ ds : List Char, shardId.data = "shard-".data ++ ds → ds ≠ [] →
        ds.all Char.isDigit →
        pickShardEndpoint shardId endpoints
          = endpoints.get? (ds.foldl (fun n c => n * 10 + (c.toNat - 48)) 0))
    ∧ ((¬ ∃ ds : List Char,
          shardId.data = "shard-".data ++ ds ∧ ds ≠ [] ∧ ds.all Char.isDigit) →
        pickShardEndpoint shardId endpoints = none)
    ∧ (∀ idx, shardIndexFromId shardId = some idx → endpoints.length ≤ idx →
        pickShardEndpoint shardId endpoints = none) := by
  refine ⟨?_, ?_, ?_⟩
  · intro ds hd hne hdig
    rw [pickShardEndpoint, shardIndexFromId_of_append shardId ds hd]
    simp [parseDigits, hne, hdig]
  · intro hno
    rw [pickShardEndpoint]
    cases hix : shardIndexFromId shardId with
    | none => rfl
    | some idx =>
      exfalso
      apply hno
      refine ⟨shardId.data.drop 6, ?_, ?_, ?_⟩
      · unfold shardIndexFromId at hix
        by_cases ht : shardId.data.take 6 = "shard-".data
        · rw [← ht]
          exact (List.take_append_drop 6 shardId.data).symm
        · rw [if_neg ht] at hix
          exact absurd hix (by simp)
      · unfold shardIndexFromId at hix
        by_cases ht : shardId.data.take 6 = "shard-".data
        · rw [if_pos ht] at hix
          unfold parseDigits at hix
          by_cases hc : shardId.data.drop 6 ≠ [] ∧ (shardId.data.drop 6).all Char.isDigit
          · exact hc.1
          · rw [if_neg hc] at hix
            exact absurd hix (by simp)
        · rw [if_neg ht] at hix
          exact absurd hix (by simp)
      · unfold shardIndexFromId at hix
        by_cases ht : shardId.data.take 6 = "shard-".data
        · rw [if_pos ht] at hix
          unfold parseDigits at hix
          by_cases hc : shardId.data.drop 6 ≠ [] ∧ (shardId.data.drop 6).all Char.isDigit
          · exact hc.2
          · rw [if_neg hc] at hix
            exact absurd hix (by simp)
        · rw [if_neg ht] at hix
          exact absurd hix (by simp)
  · intro idx hix hlen
    rw [pickShardEndpoint, hix]
    exact List.get?_eq_none.mpr hlen

/-- Witness for C4 at concrete inputs: `shard-1` over a two-endpoint list
resolves to the second endpoint; an unparseable id and an out-of-range index
yield null. -/
theorem C4_shard_router_total_witness :
    pickShardEndpoint "shard-1" ["http://h0:9", "http://h1:9"] = some "http://h1:9"
    ∧ pickShardEndpoint "shardX" ["http://h0:9"] = none
    ∧ pickShardEndpoint "shard-5" ["http://h0:9"] = none := by
  refine ⟨?_, ?_, ?_⟩
  · have h := (C4_shard_router_total "shard-1" ["http://h0:9", "http://h1:9"]).1
      ['1'] (by decide) (by decide) (by decide)
    exact h.trans (by decide)
  · refine (C4_shard_router_total "shardX" ["http://h0:9"]).2.1 ?_
    rintro ⟨ds, hd, -, -⟩
    have h1 := congrArg (List.take 6) hd
    rw [take_shard_of_append] at h1
    exact absurd h1 (by decide)
  · exact (C4_shard_router_total "shard-5" ["http://h0:9"]).2.2 5 (by decide) (by decide)

/-! ## C1: resolver calls versus cache hits -/

/-- C1 counterexample: after the first resolution the cache holds a record
whose `expiresAt = 60000` is in the future, so the second resolution at
`now = 10` is a cache hit and returns the cached record — yet it still makes
a resolver call (`resolverCalls = 1`, not `0`), because `authenticateToken`
calls `resolveIngestionToken` unconditionally to obtain the cache key.  The
pair of resolutions makes 2 resolver calls, refuting "at most one resolver
call for the pair". -/
theorem C1_claim_counterexample :
    c1First.cache.get "h1" = some ⟨"t1", some "shard-1", 60000⟩
    ∧ (10 : Nat) < 60000
    ∧ c1Second.result = some ⟨"t1", some "shard-1", 60000⟩
    ∧ c1Second.result = c1First.result
    ∧ ¬ c1Second.resolverCalls = 0
    ∧ c1First.resolverCalls + c1Second.resolverCalls = 2 := by
  decide

/-- C1 amended: within the TTL window the two resolutions do produce
identical routing decisions — the second call returns exactly the cached
record, updates nothing and skips the `markUsed` side call — but each
resolution performs exactly one resolver call (so two for the pair, not at
most one). -/
theorem authenticateToken_unresolved (resolver : String → Option ResolvedToken)
    (cache : AuthCache) (now : Nat) (token : String)
    (hres : resolver token = none) :
    authenticateToken resolver cache now token = ⟨none, cache, 1, 0⟩ := by
  simp [authenticateToken, hres]

theorem authenticateToken_nohash (resolver : String → Option ResolvedToken)
    (cache : AuthCache) (now : Nat) (token : String) (r : ResolvedToken)
    (hres : resolver token = some r) (hh : r.tokenHash.isEmpty = true) :
    authenticateToken resolver cache now token = ⟨none, cache, 1, 0⟩ := by
  simp [authenticateToken, hres, hh]

theorem authenticateToken_hit (resolver : String → Option ResolvedToken)
    (cache : AuthCache) (now : Nat) (token : String) (r : ResolvedToken)
    (cached : CachedAuth)
    (hres : resolver token = some r) (hh : r.tokenHash.isEmpty = false)
    (hget : cache.get r.tokenHash = some cached) (hfresh : now < cached.expiresAt) :
    authenticateToken resolver cache now token = ⟨some cached, cache, 1, 0⟩ := by
  simp [authenticateToken, hres, hh, hget, hfresh]

theorem authenticateToken_miss_stale (resolver : String → Option ResolvedToken)
    (cache : AuthCache) (now : Nat) (token : String) (r : ResolvedToken)
    (cached : CachedAuth)
    (hres : resolver token = some r) (hh : r.tokenHash.isEmpty = false)
    (hget : cache.get r.tokenHash = some cached) (hfresh : ¬ now < cached.expiresAt) :
    authenticateToken resolver cache now token
      = ⟨some ⟨r.teamId, r.assignedShard, now + 60000⟩,
          cache.set r.tokenHash ⟨r.teamId, r.assignedShard, now + 60000⟩, 1, 1⟩ := by
  simp [authenticateToken, hres, hh, hget, hfresh]

theorem authenticateToken_miss_empty (resolver : String → Option ResolvedToken)
    (cache : AuthCache) (now : Nat) (token : String) (r : ResolvedToken)
    (hres : resolver token = some r) (hh : r.tokenHash.isEmpty = false)
    (hget : cache.get r.tokenHash = none) :
    authenticateToken resolver cache now token
      = ⟨some ⟨r.teamId, r.assignedShard, now + 60000⟩,
          cache.set r.tokenHash ⟨r.teamId, r.assignedShard, now + 60000⟩, 1, 1⟩ := by
  simp [authenticateToken, hres, hh, hget]

theorem C1_cache_hit_behavior (resolver : String → Option ResolvedToken)
    (cache : AuthCache) (now1 now2 : Nat) (token : String) (rec : CachedAuth)
    (h1 : (authenticateToken resolver cache now1 token).result = some rec)
    (h2 : now2 < rec.expiresAt) :
    authenticateToken resolver (authenticateToken resolver cache now1 token).cache now2 token
      = ⟨some rec, (authenticateToken resolver cache now1 token).cache, 1, 0⟩
    ∧ (authenticateToken resolver cache now1 token).resolverCalls = 1 := by
  cases hres : resolver token with
  | none =>
    rw [authenticateToken_unresolved resolver cache now1 token hres] at h1
    exact absurd h1 (by simp)
  | some r =>
    cases hh : r.tokenHash.isEmpty with
    | true =>
      rw [authenticateToken_nohash resolver cache now1 token r hres hh] at h1
      exact absurd h1 (by simp)
    | false =>
      cases hget : cache.get r.tokenHash with
      | some cached =>
        by_cases hfresh : now1 < cached.expiresAt
        · rw [authenticateToken_hit resolver cache now1 token r cached hres hh hget hfresh] at h1
          simp only [Option.some.injEq] at h1
          subst h1
          rw [authenticateToken_hit resolver cache now1 token r cached hres hh hget hfresh]
          exact ⟨authenticateToken_hit resolver cache now2 token r cached hres hh hget h2, rfl⟩
        · rw [authenticateToken_miss_stale resolver cache now1 token r cached hres hh hget hfresh] at h1
          simp only [Option.some.injEq] at h1
          subst h1
          rw [authenticateToken_miss_stale resolver cache now1 token r cached hres hh hget hfresh]
          exact ⟨authenticateToken_hit resolver _ now2 token r _ hres hh
              (AuthCache.get_set_self cache r.tokenHash _) h2, rfl⟩
      | none =>
        rw [authenticateToken_miss_empty resolver cache now1 token r hres hh hget] at h1
        simp only [Option.some.injEq] at h1
        subst h1
        rw [authenticateToken_miss_empty resolver cache now1 token r hres hh hget]
        exact ⟨authenticateToken_hit resolver _ now2 token r _ hres hh
            (AuthCache.get_set_self cache r.tokenHash _) h2, rfl⟩

/-- Witness for the amended C1 at the concrete run. -/
theorem C1_cache_hit_behavior_witness :
    c1Second = ⟨some ⟨"t1", some "shard-1", 60000⟩, c1First.cache, 1, 0⟩ := by
  have h := (C1_cache_hit_behavior c1Resolver (∅ : AuthCache) 0 10 "abc"
      ⟨"t1", some "shard-1", 60000⟩ (by decide) (by decide)).1
  exact h

/-! ## C2: concurrent establishment for the same endpoint -/

/-- C2: the claim fails on the code.  A session is stored in the `sessions`
map only inside its `'connect'` handler, so a second acquisition for the same
fresh endpoint that starts before the first `connect` event finds no map
entry and calls `http2.connect` again: two concurrent acquisitions make two
establishment attempts (`connectAttempts = 2`), not one awaited attempt.  The
`awaitExisting` branch the code contains for this purpose is unreachable for
a fresh endpoint. -/
theorem C2_duplicate_establishment :
    (acquireStart Pool.empty "http://shard0:4317").2 = .establish 0
    ∧ c2TwoAcquires.2 = .establish 1
    ∧ c2TwoAcquires.1.connectAttempts = 2 := by
  decide

/-! ## C3: missing or unresolvable tokens are rejected with 401 -/

theorem getAuthHeader_eq_none (headers : List (String × HeaderValue))
    (h : ∀ p ∈ headers, lowerKey p.1 ≠ "authorization") :
    getAuthHeader headers = none := by
  have hexact : headers.find? (fun p => p.1 == "authorization") = none := by
    rw [List.find?_eq_none]
    intro p hp
    simp only [beq_iff_eq]
    intro he
    exact h p hp (by rw [he]; decide)
  have hci : headers.find? (fun p => lowerKey p.1 == "authorization") = none := by
    rw [List.find?_eq_none]
    intro p hp
    simp only [beq_iff_eq]
    exact h p hp
  rw [getAuthHeader, hexact, findAuthKeyCI, hci]
  rfl

theorem getBearerToken_none : getBearerToken none = none := rfl

/-- C3: a request or stream whose bearer token is missing (no usable
`Authorization` header value) or unresolvable is answered with status 401 and
forwards zero payload bytes to any shard, on both the HTTP and the gRPC
gateway; when no `authorization` header key is present at all, the Token
Resolver is never invoked (`resolverCalls = 0`). -/
theorem C3_unauthorized_rejection (resolver : String → Option ResolvedToken)
    (cache : AuthCache) (now : Nat) (headers : List (String × HeaderValue))
    (hEndpoints gEndpoints : List String) (f1 f2 : SessionFetch) :
    ((∀ p ∈ headers, lowerKey p.1 ≠ "authorization") →
        (handleHttpRequest resolver cache now headers hEndpoints).response
            = .reject 401 "missing token"
        ∧ (handleHttpRequest resolver cache now headers hEndpoints).response.forwardsPayload
            = false
        ∧ (handleHttpRequest resolver cache now headers hEndpoints).resolverCalls = 0
        ∧ (handleGrpcStream resolver cache now headers gEndpoints f1 f2).outcome
            = .rejected 401
        ∧ (handleGrpcStream resolver cache now headers gEndpoints f1 f2).outcome.forwardsPayload
            = false
        ∧ (handleGrpcStream resolver cache now headers gEndpoints f1 f2).resolverCalls = 0)
    ∧ (getBearerToken (getAuthHeader headers) = none →
        (handleHttpRequest resolver cache now headers hEndpoints).response
            = .reject 401 "missing token"
        ∧ (handleHttpRequest resolver cache now headers hEndpoints).response.forwardsPayload
            = false
        ∧ (handleHttpRequest resolver cache now headers hEndpoints).resolverCalls = 0
        ∧ (handleGrpcStream resolver cache now headers gEndpoints f1 f2).outcome
            = .rejected 401
        ∧ (handleGrpcStream resolver cache now headers gEndpoints f1 f2).resolverCalls = 0)
    ∧ (∀ token, getBearerToken (getAuthHeader headers) = some token →
        token.isEmpty = false →
        (authenticateToken resolver cache now token).result = none →
        (handleHttpRequest resolver cache now headers hEndpoints).response
            = .reject 401 "invalid token"
        ∧ (handleHttpRequest resolver cache now headers hEndpoints).response.forwardsPayload
            = false
        ∧ (handleGrpcStream resolver cache now headers gEndpoints f1 f2).outcome
            = .rejected 401
        ∧ (handleGrpcStream resolver cache now headers gEndpoints f1 f2).outcome.forwardsPayload
            = false) := by
  refine ⟨?_, ?_, ?_⟩
  · intro h
    have hga := getAuthHeader_eq_none headers h
    simp [handleHttpRequest, handleGrpcStream, hga, getBearerToken_none,
      HttpResponse.forwardsPayload, GrpcOutcome.forwardsPayload]
  · intro htok
    simp [handleHttpRequest, handleGrpcStream, htok,
      HttpResponse.forwardsPayload, GrpcOutcome.forwardsPayload]
  · intro token htok hne hauth
    simp [handleHttpRequest, handleGrpcStream, htok, hne, hauth,
      HttpResponse.forwardsPayload, GrpcOutcome.forwardsPayload]

/-- Witness for C3: a request with no headers at all, and a request with a
token the resolver cannot resolve. -/
theorem C3_unauthorized_rejection_witness :
    (handleHttpRequest (fun _ => none) (∅ : AuthCache) 0 [] ["e0"]).response
        = .reject 401 "missing token"
    ∧ (handleHttpRequest (fun _ => none) (∅ : AuthCache) 0 [] ["e0"]).resolverCalls = 0
    ∧ (handleHttpRequest (fun _ => none) (∅ : AuthCache) 0
          [("authorization", HeaderValue.str "Bearer nope")] ["e0"]).response
        = .reject 401 "invalid token"
    ∧ (handleGrpcStream (fun _ => none) (∅ : AuthCache) 0
          [("authorization", HeaderValue.str "Bearer nope")] ["e0"] .ok .ok).outcome
        = .rejected 401 := by
  refine ⟨?_, ?_, ?_, ?_⟩
  · exact ((C3_unauthorized_rejection (fun _ => none) (∅ : AuthCache) 0 [] ["e0"] ["e0"]
      .ok .ok).1 (by simp)).1
  · exact ((C3_unauthorized_rejection (fun _ => none) (∅ : AuthCache) 0 [] ["e0"] ["e0"]
      .ok .ok).1 (by simp)).2.2.1
  · exact ((C3_unauthorized_rejection (fun _ => none) (∅ : AuthCache) 0
      [("authorization", HeaderValue.str "Bearer nope")] ["e0"] ["e0"] .ok .ok).2.2
      "nope" (by decide) (by decide) (by decide)).1
  · exact ((C3_unauthorized_rejection (fun _ => none) (∅ : AuthCache) 0
      [("authorization", HeaderValue.str "Bearer nope")] ["e0"] ["e0"] .ok .ok).2.2
      "nope" (by decide) (by decide) (by decide)).2.2.1

/-! ## C5: authenticated requests are forwarded to the assigned shard -/

/-- C5: an authenticated HTTP request is proxied to the endpoint at the index
named by the record's assigned shard, with the outbound header
`x-hdx-team-id` set to the record's tenant id; a record with no assigned
shard (or an empty one, which JS `||` also defaults) goes to `endpoints[0]`
via the default `shard-0`. -/
theorem C5_forwarding_target (resolver : String → Option ResolvedToken)
    (cache : AuthCache) (now : Nat) (headers : List (String × HeaderValue))
    (endpoints : List String) (token : String) (auth : CachedAuth)
    (htok : getBearerToken (getAuthHeader headers) = some token)
    (hne : token.isEmpty = false)
    (hauth : (authenticateToken resolver cache now token).result = some auth) :
    (∀ s idx endpoint, auth.assignedShard = some s → s.isEmpty = false →
        shardIndexFromId s = some idx → endpoints[idx]? = some endpoint →
        (handleHttpRequest resolver cache now headers endpoints).response
          = .proxied endpoint auth.teamId)
    ∧ (∀ endpoint, (auth.assignedShard = none ∨ auth.assignedShard = some "") →
        endpoints[0]? = some endpoint →
        (handleHttpRequest resolver cache now headers endpoints).response
          = .proxied endpoint auth.teamId) := by
  constructor
  · intro s idx endpoint hs hsne hidx hend
    simp [handleHttpRequest, htok, hne, hauth, routeAuthorized, jsOrElse, hs, hsne,
      pickShardEndpoint, hidx, hend]
  · intro endpoint hs hend
    have hshard0 : shardIndexFromId "shard-0" = some 0 := by decide
    cases hs with
    | inl hnone =>
      simp [handleHttpRequest, htok, hne, hauth, routeAuthorized, jsOrElse, hnone,
        pickShardEndpoint, hshard0, hend]
    | inr hempty =>
      simp [handleHttpRequest, htok, hne, hauth, routeAuthorized, jsOrElse, hempty,
        pickShardEndpoint, hshard0, hend, show ("" : String).isEmpty = true from rfl]

/-- Witness for C5: the spec's two scenarios.  Token `abc` resolving to
`{tenantId: "t1", assignedShard: "shard-1"}` over
`["http://h0:9", "http://h1:9"]` is forwarded to `http://h1:9` with
`x-hdx-team-id: t1`; the same token resolving with no `assignedShard` is
forwarded to `endpoints[0]`. -/
theorem C5_forwarding_target_witness :
    (handleHttpRequest c5Resolver (∅ : AuthCache) 0
        [("authorization", HeaderValue.str "Bearer abc")]
        ["http://h0:9", "http://h1:9"]).response
      = .proxied "http://h1:9" "t1"
    ∧ (handleHttpRequest c5ResolverNoShard (∅ : AuthCache) 0
        [("authorization", HeaderValue.str "Bearer abc")]
        ["http://h0:9", "http://h1:9"]).response
      = .proxied "http://h0:9" "t1" := by
  constructor
  · exact (C5_forwarding_target c5Resolver (∅ : AuthCache) 0
      [("authorization", HeaderValue.str "Bearer abc")] ["http://h0:9", "http://h1:9"]
      "abc" ⟨"t1", some "shard-1", 60000⟩ (by decide) (by decide) (by decide)).1
      "shard-1" 1 "http://h1:9" rfl (by decide) (by decide) (by decide)
  · exact (C5_forwarding_target c5ResolverNoShard (∅ : AuthCache) 0
      [("authorization", HeaderValue.str "Bearer abc")] ["http://h0:9", "http://h1:9"]
      "abc" ⟨"t1", none, 60000⟩ (by decide) (by decide) (by decide)).2
      "http://h0:9" (Or.inl rfl) (by decide)

/-! ## C10: empty or all-whitespace authorization values yield no token -/

theorem jsTrim_all_space (s : String) (h : s.data.all isJsSpace = true) :
    jsTrim s = "" := by
  have h1 : s.data.dropWhile isJsSpace = [] := by
    rw [List.dropWhile_eq_nil_iff]
    intro x hx
    exact (List.all_eq_true.mp h) x hx
  rw [jsTrim, h1]
  rfl

/-- C10: an `Authorization` value that is empty or all-whitespace extracts no
token; an array value is reduced to its first element; and a request whose
extraction yields no token takes the missing-token 401 branch without any
resolver call. -/
theorem C10_empty_or_whitespace_token (resolver : String → Option ResolvedToken)
    (cache : AuthCache) (now : Nat) (headers : List (String × HeaderValue))
    (endpoints : List String) :
    (∀ s : String, s.data.all isJsSpace = true →
        getBearerToken (some (.str s)) = none)
    ∧ (∀ l : List String,
        getBearerToken (some (.arr l)) = getBearerToken (l.head?.map HeaderValue.str))
    ∧ (getBearerToken (getAuthHeader headers) = none →
        (handleHttpRequest resolver cache now headers endpoints).response
            = .reject 401 "missing token"
        ∧ (handleHttpRequest resolver cache now headers endpoints).resolverCalls = 0) := by
  refine ⟨?_, ?_, ?_⟩
  · intro s hs
    cases hd : s.data with
    | nil =>
      have hstr : s = "" := by
        cases s with
        | mk data => simp only at hd; rw [hd]
      rw [hstr]
      rfl
    | cons c rest =>
      have hemp : s.isEmpty = false := by
        rw [Bool.eq_false_iff]
        intro htrue
        rw [String.isEmpty_iff] at htrue
        rw [htrue] at hd
        exact absurd hd (by simp)
      have hc : isJsSpace c = true :=
        List.all_eq_true.mp hs c (by rw [hd]; exact List.mem_cons_self c rest)
      have hnb : ¬ ((c = 'B' ∨ c = 'b') ∧ rest.take 5 = ['e', 'a', 'r', 'e', 'r']) := by
        rintro ⟨hcb, -⟩
        cases hcb with
        | inl h => rw [h] at hc; exact absurd hc (by decide)
        | inr h => rw [h] at hc; exact absurd hc (by decide)
      have hmb : matchBearer s.data = none := by
        rw [hd, matchBearer]
        exact if_neg hnb
      have htrim : jsTrim s = "" := jsTrim_all_space s hs
      simp [getBearerToken, hemp, hmb, htrim, show ("" : String).isEmpty = true from rfl]
  · intro l
    cases hl : l.head? with
    | none => simp [getBearerToken, hl]
    | some s => simp [getBearerToken, hl]
  · intro htok
    simp [handleHttpRequest, htok]

/-- Witness for C10 at concrete values: a spaces-and-tab value, the empty
string, and an array whose first element is empty all yield no token, and the
run rejects with 401 and no resolver call. -/
theorem C10_empty_or_whitespace_token_witness :
    getBearerToken (some (.str " \t ")) = none
    ∧ getBearerToken (some (.str "")) = none
    ∧ getBearerToken (some (.arr ["", "Bearer abc"]))
        = getBearerToken (some (.str ""))
    ∧ (handleHttpRequest (fun _ => none) (∅ : AuthCache) 0
          [("authorization", HeaderValue.str " \t ")] ["e0"]).response
        = .reject 401 "missing token" := by
  refine ⟨?_, ?_, ?_, ?_⟩
  · exact (C10_empty_or_whitespace_token (fun _ => none) (∅ : AuthCache) 0 [] ["e0"]).1
      " \t " (by decide)
  · exact (C10_empty_or_whitespace_token (fun _ => none) (∅ : AuthCache) 0 [] ["e0"]).1
      "" (by decide)
  · exact (C10_empty_or_whitespace_token (fun _ => none) (∅ : AuthCache) 0 [] ["e0"]).2.1
      ["", "Bearer abc"]
  · exact ((C10_empty_or_whitespace_token (fun _ => none) (∅ : AuthCache) 0
      [("authorization", HeaderValue.str " \t ")] ["e0"]).2.2 (by decide)).1

/-! ## C6: finalization executes at most once per stream -/

theorem finStep_counts (s : StreamFin) (e : FinEvent) (h : FinCounts s) :
    FinCounts (finStep s e) := by
  obtain ⟨h1, h2⟩ := h
  obtain ⟨r, en, d, c, rs, es⟩ := s
  cases e with
  | respondCall t =>
    cases r <;> cases d <;> cases c <;> cases t <;>
      simp_all [finStep, safeRespond, FinCounts]
  | endCall t =>
    cases en <;> cases d <;> cases t <;>
      simp_all [finStep, safeEnd, FinCounts]
  | markDestroyed => simp_all [finStep, FinCounts]
  | markClosed => simp_all [finStep, FinCounts]

theorem runFin_counts (evs : List FinEvent) (s : StreamFin) (h : FinCounts s) :
    FinCounts (runFin s evs) := by
  induction evs generalizing s with
  | nil => exact h
  | cons e rest ih => exact ih (finStep s e) (finStep_counts s e h)

/-- C6: for every interleaving of the async events that try to finalize an
inbound stream (each going through the `safeRespond`/`safeEnd` guards, with
`stream.respond`/`stream.end` allowed to throw, and the client free to
destroy or close the stream at any point), at most one `stream.respond` and
at most one `stream.end` actually execute. -/
theorem C6_finalize_at_most_once (evs : List FinEvent) :
    (runFin StreamFin.init evs).respondsSent ≤ 1
    ∧ (runFin StreamFin.init evs).endsSent ≤ 1 := by
  obtain ⟨h1, h2⟩ := runFin_counts evs StreamFin.init ⟨rfl, rfl⟩
  constructor
  · rw [h1]; cases (runFin StreamFin.init evs).streamResponded <;> simp
  · rw [h2]; cases (runFin StreamFin.init evs).streamEnded <;> simp

/-! ## C7: abort propagation across the bridged stream pair -/

theorem bridgeStep_frozen (b : Bridge) (e : BridgeEvent)
    (h1 : b.inboundDestroyed = true) (h2 : b.proxyDestroyed = true) :
    bridgeStep b e = b := by
  obtain ⟨i1, i2, i3, p1, r1, r2⟩ := b
  cases e <;> simp_all [bridgeStep]

theorem runBridge_frozen (b : Bridge) (evs : List BridgeEvent)
    (h1 : b.inboundDestroyed = true) (h2 : b.proxyDestroyed = true) :
    runBridge b evs = b := by
  induction evs with
  | nil => rfl
  | cons e rest ih =>
    show runBridge (bridgeStep b e) rest = b
    rw [bridgeStep_frozen b e h1 h2]
    exact ih

/-- C7: client abort propagates across the bridged pair.  Destroying the
inbound stream (the `'aborted'` handler) also destroys the paired outbound
stream; an outbound close finalizes the inbound stream (it ends unless it was
already destroyed); after the abort no later event relays a single further
byte in either direction; and once both sides are destroyed the bridge state
is frozen — no half-open stream keeps relaying. -/
theorem C7_abort_propagation (b : Bridge) (evs : List BridgeEvent) :
    ((bridgeStep b .inboundAborted).inboundDestroyed = true
      ∧ (bridgeStep b .inboundAborted).proxyDestroyed = true)
    ∧ ((bridgeStep b .proxyClose).inboundEnded = true
        ∨ (bridgeStep b .proxyClose).inboundDestroyed = true)
    ∧ (runBridge (bridgeStep b .inboundAborted) evs).relayedIn = b.relayedIn
    ∧ (runBridge (bridgeStep b .inboundAborted) evs).relayedOut = b.relayedOut
    ∧ (b.inboundDestroyed = true → b.proxyDestroyed = true →
        runBridge b evs = b) := by
  refine ⟨⟨rfl, rfl⟩, ?_, ?_, ?_, fun h1 h2 => runBridge_frozen b evs h1 h2⟩
  · obtain ⟨i1, i2, i3, p1, r1, r2⟩ := b
    cases i2 <;> cases i1 <;> simp [bridgeStep]
  · rw [runBridge_frozen _ evs rfl rfl]
    obtain ⟨i1, i2, i3, p1, r1, r2⟩ := b
    rfl
  · rw [runBridge_frozen _ evs rfl rfl]
    obtain ⟨i1, i2, i3, p1, r1, r2⟩ := b
    rfl

/-- Witness for C7: a fresh bridge aborted by the client relays none of the
subsequently arriving bytes, and a doubly-destroyed bridge is inert. -/
theorem C7_abort_propagation_witness :
    (runBridge (bridgeStep ⟨false, false, false, false, 3, 4⟩ .inboundAborted)
        [.inboundData 5, .proxyData 7, .proxyClose]).relayedIn = 3
    ∧ runBridge ⟨true, false, false, true, 3, 4⟩ [.inboundData 5]
        = ⟨true, false, false, true, 3, 4⟩ := by
  constructor
  · exact (C7_abort_propagation ⟨false, false, false, false, 3, 4⟩
      [.inboundData 5, .proxyData 7, .proxyClose]).2.2.1
  · exact (C7_abort_propagation ⟨true, false, false, true, 3, 4⟩
      [.inboundData 5]).2.2.2.2 rfl rfl

/-! ## C8: transient-vs-fatal classification of session errors -/

/-- C8: a connection reset (`ECONNRESET`) on an already-established session
is not logged at error level and only removes the session from the pool
without failing any acquisition, while any error — including a reset — during
session establishment is logged, removes the session and rejects the pending
acquisition; a rejected acquisition is surfaced by the stream handler as a
503 service-unavailable response. -/
theorem C8_transient_vs_fatal (code : String)
    (resolver : String → Option ResolvedToken) (cache : AuthCache) (now : Nat)
    (headers : List (String × HeaderValue)) (endpoints : List String)
    (f2 : SessionFetch) :
    onSessionError false "ECONNRESET" = ⟨false, true, false⟩
    ∧ onSessionError true code = ⟨true, true, true⟩
    ∧ (∀ token auth target,
        getBearerToken (getAuthHeader headers) = some token →
        token.isEmpty = false →
        (authenticateToken resolver cache now token).result = some auth →
        routeAuthorized auth endpoints = some target →
        (handleGrpcStream resolver cache now headers endpoints .err f2).outcome
          = .rejected 503) := by
  refine ⟨by decide, rfl, ?_⟩
  intro token auth target htok hne hauth hroute
  simp [handleGrpcStream, htok, hne, hauth, hroute]

/-- Witness for C8: the classification at a concrete post-establishment
reset, a concrete mid-establishment reset, and a concrete stream whose
acquisition fails. -/
theorem C8_transient_vs_fatal_witness :
    onSessionError true "ECONNRESET" = ⟨true, true, true⟩
    ∧ (handleGrpcStream c5Resolver (∅ : AuthCache) 0
        [("authorization", HeaderValue.str "Bearer abc")]
        ["http://h0:9", "http://h1:9"] .err .ok).outcome = .rejected 503 := by
  constructor
  · exact (C8_transient_vs_fatal "ECONNRESET" c5Resolver (∅ : AuthCache) 0 [] [] .ok).2.1
  · exact (C8_transient_vs_fatal "ECONNRESET" c5Resolver (∅ : AuthCache) 0
      [("authorization", HeaderValue.str "Bearer abc")] ["http://h0:9", "http://h1:9"]
      .ok).2.2 "abc" ⟨"t1", some "shard-1", 60000⟩ "http://h1:9"
      (by decide) (by decide) (by decide) (by decide)

/-! ## C9: raw tokens in log entries -/

/-- C9 counterexample: for the request with header `Bearer abc` and an
unresolvable token `abc`, the invalid-token log entry's `tokenPrefix` field
is the string `abc...`, which contains the raw 3-character token in full —
`token.substring(0, 10)` truncates nothing for tokens of at most 10
characters, so the raw bearer token does appear in a log entry. -/
theorem C9_claim_counterexample :
    getBearerToken (getAuthHeader [("authorization", HeaderValue.str "Bearer abc")])
        = some "abc"
    ∧ c9Run.logFields = ["Bearer abc...", "abc..."]
    ∧ "abc".data <:+: ("abc..." : String).data
    ∧ "abc".data <:+: ("Bearer abc..." : String).data := by
  refine ⟨by decide, by decide, ⟨[], ['.', '.', '.'], rfl⟩, ⟨"Bearer ".data, ['.', '.', '.'], rfl⟩⟩

theorem headerLogTokenField_length (v : Option HeaderValue) :
    (headerLogTokenField v).data.length ≤ 23 := by
  cases v with
  | none => decide
  | some hv =>
    cases hv with
    | str s =>
      show (s.data.take 20 ++ ['.', '.', '.']).length ≤ 23
      simp only [List.length_append, List.length_take, List.length_cons,
        List.length_nil]
      omega
    | arr l =>
      show ("multiple" : String).data.length ≤ 23
      decide

theorem invalidTokenLogField_length (t : String) :
    (invalidTokenLogField t).data.length ≤ 23 := by
  show (t.data.take 10 ++ ['.', '.', '.']).length ≤ 23
  simp only [List.length_append, List.length_take, List.length_cons, List.length_nil]
  omega

theorem handleHttpRequest_logFields_short (resolver : String → Option ResolvedToken)
    (cache : AuthCache) (now : Nat) (headers : List (String × HeaderValue))
    (endpoints : List String) :
    ∀ f ∈ (handleHttpRequest resolver cache now headers endpoints).logFields,
      f.data.length ≤ 23 := by
  intro f hf
  cases htok : getBearerToken (getAuthHeader headers) with
  | none =>
    simp [handleHttpRequest, htok] at hf
    rw [hf]
    exact headerLogTokenField_length _
  | some token =>
    cases hne : token.isEmpty with
    | true =>
      simp [handleHttpRequest, htok, hne] at hf
      rw [hf]
      exact headerLogTokenField_length _
    | false =>
      cases hauth : (authenticateToken resolver cache now token).result with
      | none =>
        simp [handleHttpRequest, htok, hne, hauth] at hf
        cases hf with
        | inl h => rw [h]; exact headerLogTokenField_length _
        | inr h => rw [h]; exact invalidTokenLogField_length _
      | some auth =>
        cases hroute : routeAuthorized auth endpoints with
        | none =>
          simp [handleHttpRequest, htok, hne, hauth, hroute] at hf
          rw [hf]
          exact headerLogTokenField_length _
        | some target =>
          simp [handleHttpRequest, htok, hne, hauth, hroute] at hf
          rw [hf]
          exact headerLogTokenField_length _

theorem handleGrpcStream_logFields_short (resolver : String → Option ResolvedToken)
    (cache : AuthCache) (now : Nat) (headers : List (String × HeaderValue))
    (endpoints : List String) (f1 f2 : SessionFetch) :
    ∀ f ∈ (handleGrpcStream resolver cache now headers endpoints f1 f2).logFields,
      f.data.length ≤ 23 := by
  intro f hf
  cases htok : getBearerToken (getAuthHeader headers) with
  | none =>
    simp [handleGrpcStream, htok] at hf
    rw [hf]
    exact headerLogTokenField_length _
  | some token =>
    cases hne : token.isEmpty with
    | true =>
      simp [handleGrpcStream, htok, hne] at hf
      rw [hf]
      exact headerLogTokenField_length _
    | false =>
      cases hauth : (authenticateToken resolver cache now token).result with
      | none =>
        simp [handleGrpcStream, htok, hne, hauth] at hf
        cases hf with
        | inl h => rw [h]; exact headerLogTokenField_length _
        | inr h => rw [h]; exact invalidTokenLogField_length _
      | some auth =>
        cases hroute : routeAuthorized auth endpoints with
        | none =>
          simp [handleGrpcStream, htok, hne, hauth, hroute] at hf
          rw [hf]
          exact headerLogTokenField_length _
        | some target =>
          cases f1 <;> cases f2 <;>
            simp [handleGrpcStream, htok, hne, hauth, hroute] at hf <;>
            (rw [hf]; exact headerLogTokenField_length _)

/-- C9 amended: every token-derived log field is a fixed-length prefix plus
an ellipsis (at most 23 characters: 20 of the header value, or 10 of the
token), so a token longer than 23 characters never appears in any
token-derived log field of either gateway — but tokens short enough to fit,
such as the 3-character `abc` of the counterexample, do appear in full. -/
theorem C9_long_token_not_logged (resolver : String → Option ResolvedToken)
    (cache : AuthCache) (now : Nat) (headers : List (String × HeaderValue))
    (endpoints : List String) (f1 f2 : SessionFetch) (token : String)
    (hlen : 23 < token.data.length) :
    (∀ f ∈ (handleHttpRequest resolver cache now headers endpoints).logFields,
        ¬ token.data <:+: f.data)
    ∧ (∀ f ∈ (handleGrpcStream resolver cache now headers endpoints f1 f2).logFields,
        ¬ token.data <:+: f.data) := by
  constructor
  · intro f hf hinf
    have h1 := hinf.length_le
    have h2 := handleHttpRequest_logFields_short resolver cache now headers endpoints f hf
    omega
  · intro f hf hinf
    have h1 := hinf.length_le
    have h2 := handleGrpcStream_logFields_short resolver cache now headers endpoints f1 f2 f hf
    omega

/-- Witness for the amended C9: the 24-character token is absent from the
header-prefix log field of its own run. -/
theorem C9_long_token_not_logged_witness :
    23 < c9LongToken.data.length
    ∧ ¬ c9LongToken.data <:+: (c9LongRun.logFields.headD "").data := by
  refine ⟨by decide, ?_⟩
  exact (C9_long_token_not_logged (fun _ => none) (∅ : AuthCache) 0
    [("authorization", HeaderValue.str ("Bearer " ++ c9LongToken))] ["http://h0:9"]
    .ok .ok c9LongToken (by decide)).1 (c9LongRun.logFields.headD "") (by decide)

end OtelGateway
